import Mathlib

/-!
Verification of the `byte_watt_battery` integration: a shallow embedding of
`helpers.py`, `battery_monitor.py`, `sensor.py` and the coordinator's refresh
discipline, together with theorems settling the specification's claims.

Conventions of the embedding:
* Python `int` values become `Int`/`Nat`; 64-bit words in SHA-512 are `Nat`
  reduced modulo `2 ^ 64`.
* JSON bodies (the result of `response.json()`) become the inductive `Json`;
  Python `None` is `Json.null` (so the monitor's `access_token` attribute,
  initially `None` and later assigned whatever JSON value the login body
  held, is a plain `Json`).
* Exceptions become `Except`/`Option` results.  `PyErr.updateFailed` is the
  `UpdateFailed` exception (with the wrapped cause's message);
  `PyErr.exn` is any other exception (network errors from `aiohttp`,
  `KeyError`/`TypeError`/`AttributeError`, JSON decode failures).
* The network is an oracle `Net`: the list of responses the vendor API will
  give to successive login POSTs and telemetry GETs; each HTTP call consumes
  the head of the corresponding list.
-/

namespace ByteWatt

/-! ### SHA-512 (the `hashlib.sha512(...).hexdigest()` pipeline of helpers.py) -/

/-- Modulus for 64-bit word arithmetic. -/
def M64 : Nat := 2 ^ 64

/-- Right rotation of a 64-bit word. -/
def rotr64 (n x : Nat) : Nat := ((x >>> n) ||| (x <<< (64 - n))) % M64

/-- Logical right shift of a 64-bit word. -/
def shr64 (n x : Nat) : Nat := x >>> n

/-- Bitwise complement of a 64-bit word. -/
def not64 (x : Nat) : Nat := x ^^^ (M64 - 1)

def bigSigma0 (x : Nat) : Nat := rotr64 28 x ^^^ rotr64 34 x ^^^ rotr64 39 x

def bigSigma1 (x : Nat) : Nat := rotr64 14 x ^^^ rotr64 18 x ^^^ rotr64 41 x

def smallSigma0 (x : Nat) : Nat := rotr64 1 x ^^^ rotr64 8 x ^^^ shr64 7 x

def smallSigma1 (x : Nat) : Nat := rotr64 19 x ^^^ rotr64 61 x ^^^ shr64 6 x

def ch64 (x y z : Nat) : Nat := (x &&& y) ^^^ (not64 x &&& z)

def maj64 (x y z : Nat) : Nat := (x &&& y) ^^^ (x &&& z) ^^^ (y &&& z)

/-- The 80 SHA-512 round constants. -/
def sha512K : List Nat :=
  [4794697086780616226, 8158064640168781261, 13096744586834688815,
   16840607885511220156, 4131703408338449720, 6480981068601479193,
   10538285296894168987, 12329834152419229976, 15566598209576043074,
   1334009975649890238, 2608012711638119052, 6128411473006802146,
   8268148722764581231, 9286055187155687089, 11230858885718282805,
   13951009754708518548, 16472876342353939154, 17275323862435702243,
   1135362057144423861, 2597628984639134821, 3308224258029322869,
   5365058923640841347, 6679025012923562964, 8573033837759648693,
   10970295158949994411, 12119686244451234320, 12683024718118986047,
   13788192230050041572, 14330467153632333762, 15395433587784984357,
   489312712824947311, 1452737877330783856, 2861767655752347644,
   3322285676063803686, 5560940570517711597, 5996557281743188959,
   7280758554555802590, 8532644243296465576, 9350256976987008742,
   10552545826968843579, 11727347734174303076, 12113106623233404929,
   14000437183269869457, 14369950271660146224, 15101387698204529176,
   15463397548674623760, 17586052441742319658, 1182934255886127544,
   1847814050463011016, 2177327727835720531, 2830643537854262169,
   3796741975233480872, 4115178125766777443, 5681478168544905931,
   6601373596472566643, 7507060721942968483, 8399075790359081724,
   8693463985226723168, 9568029438360202098, 10144078919501101548,
   10430055236837252648, 11840083180663258601, 13761210420658862357,
   14299343276471374635, 14566680578165727644, 15097957966210449927,
   16922976911328602910, 17689382322260857208, 500013540394364858,
   748580250866718886, 1242879168328830382, 1977374033974150939,
   2944078676154940804, 3659926193048069267, 4368137639120453308,
   4836135668995329356, 5532061633213252278, 6448918945643986474,
   6902733635092675308, 7801388544844847127]

/-- The 8-word SHA-512 working state. -/
structure Sha512State where
  a : Nat
  b : Nat
  c : Nat
  d : Nat
  e : Nat
  f : Nat
  g : Nat
  h : Nat
deriving Repr, DecidableEq

/-- SHA-512 initial hash value. -/
def sha512Init : Sha512State :=
  ⟨7640891576956012808, 13503953896175478587, 4354685564936845355,
   11912009170470909681, 5840696475078001361, 11170449401992604703,
   2270897969802886507, 6620516959819538809⟩

/-- One SHA-512 round, consuming one pair of round constant and schedule word. -/
def sha512Round (st : Sha512State) (kw : Nat × Nat) : Sha512State :=
  let t1 := (st.h + bigSigma1 st.e + ch64 st.e st.f st.g + kw.1 + kw.2) % M64
  let t2 := (bigSigma0 st.a + maj64 st.a st.b st.c) % M64
  ⟨(t1 + t2) % M64, st.a, st.b, st.c, (st.d + t1) % M64, st.e, st.f, st.g⟩

/-- Big-endian 64-bit word at index `i` of a 128-byte block. -/
def word64At (block : List Nat) (i : Nat) : Nat :=
  (List.range 8).foldl (fun acc k => acc * 256 + block.getD (8 * i + k) 0) 0

/-- Next word of the message schedule, extending the accumulated list. -/
def nextScheduleWord (w : List Nat) : Nat :=
  (smallSigma1 (w.getD (w.length - 2) 0) + w.getD (w.length - 7) 0 +
   smallSigma0 (w.getD (w.length - 15) 0) + w.getD (w.length - 16) 0) % M64

/-- The 80-word message schedule of one block. -/
def messageSchedule (block : List Nat) : List Nat :=
  (List.range 64).foldl (fun w _ => w ++ [nextScheduleWord w])
    ((List.range 16).map (word64At block))

/-- Compress one 128-byte block into the hash state. -/
def sha512Compress (st : Sha512State) (block : List Nat) : Sha512State :=
  let r := (sha512K.zip (messageSchedule block)).foldl sha512Round st
  ⟨(st.a + r.a) % M64, (st.b + r.b) % M64, (st.c + r.c) % M64,
   (st.d + r.d) % M64, (st.e + r.e) % M64, (st.f + r.f) % M64,
   (st.g + r.g) % M64, (st.h + r.h) % M64⟩

/-- Fold the compression function over a padded message, 128 bytes at a time. -/
def sha512Blocks (st : Sha512State) (msg : List Nat) : Sha512State :=
  if hm : msg = [] then st
  else sha512Blocks (sha512Compress st (msg.take 128)) (msg.drop 128)
termination_by msg.length
decreasing_by
  have hpos : 0 < msg.length := List.length_pos.mpr hm
  simp [List.length_drop]
  omega

/-- The 16-byte big-endian encoding of the message bit length. -/
def lenBytes16 (bitlen : Nat) : List Nat :=
  (List.range 16).map (fun i => (bitlen >>> (8 * (15 - i))) % 256)

/-- SHA-512 padding: `0x80`, zeros to 112 mod 128, then the 128-bit length. -/
def sha512Pad (msg : List Nat) : List Nat :=
  let l := msg.length
  let padZeros := (128 - (l + 17) % 128) % 128
  msg ++ [0x80] ++ List.replicate padZeros 0 ++ lenBytes16 (8 * l)

/-- Big-endian byte serialization of one 64-bit word. -/
def word64Bytes (x : Nat) : List Nat :=
  (List.range 8).map (fun i => (x >>> (8 * (7 - i))) % 256)

/-- The 64-byte SHA-512 digest of a byte string. -/
def sha512Bytes (msg : List Nat) : List Nat :=
  let st := sha512Blocks sha512Init (sha512Pad msg)
  word64Bytes st.a ++ word64Bytes st.b ++ word64Bytes st.c ++ word64Bytes st.d ++
  word64Bytes st.e ++ word64Bytes st.f ++ word64Bytes st.g ++ word64Bytes st.h

/-- The lowercase hexadecimal digit character for a value below 16. -/
def hexDigitChar (n : Nat) : Char :=
  if n < 10 then Char.ofNat (48 + n) else Char.ofNat (87 + n)

/-- Two lowercase hex characters for one byte. -/
def byteToHex (b : Nat) : List Char := [hexDigitChar (b / 16), hexDigitChar (b % 16)]

/-- Lowercase hex encoding of a byte string (Python's `hexdigest`). -/
def bytesToHex (bs : List Nat) : String := ⟨(bs.map byteToHex).flatten⟩

/-- Bytes of a string under `str.encode()`; every string the integration
hashes is ASCII, where UTF-8 is the identity on code points. -/
def strBytes (s : String) : List Nat := s.data.map Char.toNat

/-! ### helpers.py -/

/-- Embedding of `helpers.generate_auth_signature`: concatenate the four fixed secrets and
the decimal form of the timestamp, SHA-512 it, hex-encode, and wrap with the
fixed literal markers. -/
def generate_auth_signature (timestamp : Int) : String :=
  let r := "LS885ZYDA95JV"
  let a := "FQKUIUUUV7PQNODZ"
  let A := "RDZIS4ERRED"
  let i := "S0EED8BCWSS"
  let auth_string := r ++ a ++ A ++ i ++ toString timestamp
  let hash_hex := bytesToHex (sha512Bytes (strBytes auth_string))
  "al8e4s" ++ hash_hex ++ "ui893ed"

/-! ### Python objects parsed from JSON -/

/-- A Python object obtained from `response.json()`.  `null` is Python
`None`. -/
inductive Json where
  | null : Json
  | bool (b : Bool) : Json
  | num (q : ℚ) : Json
  | str (s : String) : Json
  | arr (elems : List Json) : Json
  | obj (fields : List (String × Json)) : Json
deriving Repr

/-- Python truthiness of a JSON-derived object (`if not self.access_token`). -/
def Json.truthy : Json → Bool
  | .null => false
  | .bool b => b
  | .num q => q ≠ 0
  | .str s => s ≠ ""
  | .arr l => !l.isEmpty
  | .obj l => !l.isEmpty

/-- Python `str()` of a JSON-derived object, as used by the f-string
`f"Bearer ..."`.  Only the string and `None` cases ever matter: tokens are
strings in every real response. -/
def Json.pyStr : Json → String
  | .null => "None"
  | .bool b => if b then "True" else "False"
  | .num q => toString q
  | .str s => s
  | .arr _ => "[...]"
  | .obj _ => "obj"

/-! ### battery_monitor.py -/

/-- Constant `REQUEST_TIMEOUT = 5` (seconds). -/
def REQUEST_TIMEOUT : Nat := 5

/-- Constant `MAX_RETRIES = 3`. -/
def MAX_RETRIES : Nat := 3

/-- Constant `RETRY_DELAY = 2` (seconds). -/
def RETRY_DELAY : Nat := 2

/-- A raised Python exception: either an `UpdateFailed` (message plus the
message of the wrapped `from err` cause, when any) or any other exception. -/
inductive PyErr where
  | updateFailed (msg : String) (cause : Option String) : PyErr
  | exn (msg : String) : PyErr
deriving Repr, DecidableEq

/-- A telemetry GET response: HTTP status plus the outcome of
`response.json()` (`Except.error` is a decode exception). -/
structure HttpResp where
  status : Nat
  body : Except String Json
deriving Repr

/-- The network oracle: responses the vendor API will give to successive
login POSTs and telemetry GETs.  `Except.error` is a transport-level
exception raised by the HTTP call itself. -/
structure Net where
  posts : List (Except String Json)
  gets : List (Except String HttpResp)
deriving Repr

/-- Consume the next login POST response (an exhausted oracle behaves as a
network failure). -/
def takePost (n : Net) : Except String Json × Net :=
  match n.posts with
  | [] => (.error "connection error", n)
  | r :: rest => (r, { n with posts := rest })

/-- Consume the next telemetry GET response. -/
def takeGet (n : Net) : Except String HttpResp × Net :=
  match n.gets with
  | [] => (.error "connection error", n)
  | r :: rest => (r, { n with gets := rest })

/-- The mutable attributes of `ByteWattBatteryMonitor` (the `hass` handle and
HTTP session carry no state the claims mention). -/
structure MonitorState where
  username : String
  password : String
  scan_interval : Int
  auth_timestamp : Int
  auth_signature : String
  access_token : Json
deriving Repr

/-- Embedding of `ByteWattBatteryMonitor.__init__`: the timestamp is taken once and the
signature computed once from it; the token starts as `None`. -/
def initMonitor (username password : String) (scan_interval now : Int) :
    MonitorState :=
  { username := username
    password := password
    scan_interval := scan_interval
    auth_timestamp := now
    auth_signature := generate_auth_signature now
    access_token := .null }

/-- The evaluation of `data["data"]["AccessToken"]` on a parsed login body:
`Except.error` is the `KeyError`/`TypeError` the subscripts raise. -/
def extractAccessToken : Json → Except String Json
  | .obj fields =>
    match fields.lookup "data" with
    | none => .error "KeyError: data"
    | some (.obj dfields) =>
      match dfields.lookup "AccessToken" with
      | none => .error "KeyError: AccessToken"
      | some tok => .ok tok
    | some _ => .error "TypeError: not subscriptable"
  | _ => .error "TypeError: not subscriptable"

/-- Embedding of `ByteWattBatteryMonitor.authenticate`: POST the credentials, store
`data["data"]["AccessToken"]`; any exception is wrapped into
`UpdateFailed("Error authenticating with Byte Watt API")`.  The token
assignment happens only after the subscripts succeed, so on failure the
stored token is untouched. -/
def authenticate (s : MonitorState) (net : Net) :
    MonitorState × Net × Option PyErr :=
  let (resp, net') := takePost net
  match resp with
  | .error e =>
    (s, net', some (.updateFailed "Error authenticating with Byte Watt API" (some e)))
  | .ok data =>
    match extractAccessToken data with
    | .ok tok => ({ s with access_token := tok }, net', none)
    | .error e =>
      (s, net', some (.updateFailed "Error authenticating with Byte Watt API" (some e)))

/-- The Python comparison `data.get("code") == 9007`: true exactly when the
field is present with numeric value 9007. -/
def codeIs9007 (fields : List (String × Json)) : Bool :=
  match fields.lookup "code" with
  | some (.num q) => q = 9007
  | _ => false

/-- The headers dict built by `get_battery_data` and mutated by
`fetch_battery_data` on a 401. -/
structure Headers where
  contentType : String
  authtimestamp : String
  authsignature : String
  authorization : String
deriving Repr, DecidableEq

/-- Embedding of `ByteWattBatteryMonitor.fetch_battery_data`: one GET.  On 401 it
re-authenticates, rewrites the `Authorization` header and returns `{}` (the
code's "need for retry" marker).  Otherwise the body is classified: vendor
code 9007 raises the transient `UpdateFailed`; a non-empty dict under
`"data"` is returned; anything else raises the format `UpdateFailed`.
An `UpdateFailed` raised by `authenticate` inside the 401 branch propagates
out of this helper. -/
def fetch_battery_data (s : MonitorState) (headers : Headers) (net : Net) :
    MonitorState × Headers × Net × Except PyErr (List (String × Json)) :=
  let (resp, net') := takeGet net
  match resp with
  | .error e => (s, headers, net', .error (.exn e))
  | .ok r =>
    if r.status = 401 then
      match authenticate s net' with
      | (s', net'', some err) => (s', headers, net'', .error err)
      | (s', net'', none) =>
        let headers' :=
          { headers with authorization := "Bearer " ++ s'.access_token.pyStr }
        (s', headers', net'', .ok [])
    else
      match r.body with
      | .error e => (s, headers, net', .error (.exn e))
      | .ok (.obj fields) =>
        if codeIs9007 fields then
          (s, headers, net',
            .error (.updateFailed "Network error code 9007 from Byte Watt API" none))
        else
          match fields.lookup "data" with
          | some (.obj dfields) =>
            if 0 < dfields.length then
              (s, headers, net', .ok dfields)
            else
              (s, headers, net',
                .error (.updateFailed "Unexpected data format from Byte Watt API" none))
          | _ =>
            (s, headers, net',
              .error (.updateFailed "Unexpected data format from Byte Watt API" none))
      | .ok _ => (s, headers, net', .error (.exn "AttributeError: no attribute get"))

/-- The `for attempt in range(MAX_RETRIES)` loop of `get_battery_data`,
recursing on the number of remaining iterations (`remaining = MAX_RETRIES -
attempt`, so `attempt < MAX_RETRIES - 1` is `0 < remaining - 1`).  A returned
dict (even the empty 401 marker) exits the loop because `data is not None`
always holds; an `UpdateFailed` on the last attempt is re-raised, any other
exception on the last attempt is wrapped; earlier failures sleep
`RETRY_DELAY` seconds (recorded in `sleeps`) and retry.  Falling off the
loop returns `{}`. -/
def getLoop :
    Nat → MonitorState → Headers → Net → List Nat →
    MonitorState × Headers × Net × List Nat × Except PyErr (List (String × Json))
  | 0, s, headers, net, sleeps => (s, headers, net, sleeps, .ok [])
  | remaining + 1, s, headers, net, sleeps =>
    match fetch_battery_data s headers net with
    | (s', headers', net', .ok data) => (s', headers', net', sleeps, .ok data)
    | (s', headers', net', .error e) =>
      if 0 < remaining then
        getLoop remaining s' headers' net' (sleeps ++ [RETRY_DELAY])
      else
        match e with
        | .updateFailed m c => (s', headers', net', sleeps, .error (.updateFailed m c))
        | .exn m =>
          (s', headers', net', sleeps,
            .error (.updateFailed "Error fetching data from Byte Watt API" (some m)))

/-- Embedding of `ByteWattBatteryMonitor.get_battery_data`: authenticate first when the
token is falsy (an `UpdateFailed` there propagates uncaught), build the
headers from the now-current token, then run the retry loop.  Returns the
final monitor state, remaining oracle, recorded sleeps and the
result/exception. -/
def get_battery_data (s : MonitorState) (net : Net) :
    MonitorState × Net × List Nat × Except PyErr (List (String × Json)) :=
  let run := fun (s₀ : MonitorState) (net₀ : Net) =>
    let headers : Headers :=
      { contentType := "application/json"
        authtimestamp := toString s₀.auth_timestamp
        authsignature := s₀.auth_signature
        authorization := "Bearer " ++ s₀.access_token.pyStr }
    let r := getLoop MAX_RETRIES s₀ headers net₀ []
    (r.1, r.2.2.1, r.2.2.2.1, r.2.2.2.2)
  if !s.access_token.truthy then
    match authenticate s net with
    | (s', net', some err) => (s', net', [], .error err)
    | (s', net', none) => run s' net'
  else
    run s net

/-! ### sensor.py -/

/-- Python `float()` of a JSON-derived value: numbers convert exactly,
booleans to 0/1; `float()` of anything else is modelled as an exception.
(Python would additionally parse numeric strings; no telemetry value in the
claims is a string, and `None` never reaches `float()` in the source.) -/
def pyFloat : Json → Except String ℚ
  | .num q => .ok q
  | .bool b => .ok (if b then 1 else 0)
  | _ => .error "TypeError: float() argument"

/-- Embedding of `sensor.get_power_value`: `data.get(key)`, then `float(value)` when the
value is not `None`; a missing key or a JSON `null` gives `0.0`. -/
def get_power_value (data : List (String × Json)) (key : String) :
    Except String ℚ :=
  match data.lookup key with
  | none => .ok 0
  | some .null => .ok 0
  | some v => pyFloat v

/-- The "Grid Phase 1 Feed-In" formula:
`abs(min(get_power_value(data, "pmeter_l1"), 0))`. -/
def gridPhase1FeedIn (data : List (String × Json)) : Except String ℚ :=
  (get_power_value data "pmeter_l1").map (fun x => |min x 0|)

/-- The "Grid Phase 1 Consumption" formula:
`max(get_power_value(data, "pmeter_l1"), 0)`. -/
def gridPhase1Consumption (data : List (String × Json)) : Except String ℚ :=
  (get_power_value data "pmeter_l1").map (fun x => max x 0)

/-- The "Battery Charging" formula: `abs(min(get_power_value(data, "pbat"), 0))`. -/
def batteryCharging (data : List (String × Json)) : Except String ℚ :=
  (get_power_value data "pbat").map (fun x => |min x 0|)

/-- The "PV Generation" formula:
`sum(get_power_value(data, f"ppv{i}") for i in range(1, 5))`. -/
def pvGeneration (data : List (String × Json)) : Except String ℚ := do
  let x1 ← get_power_value data "ppv1"
  let x2 ← get_power_value data "ppv2"
  let x3 ← get_power_value data "ppv3"
  let x4 ← get_power_value data "ppv4"
  return x1 + x2 + x3 + x4

/-- The "Battery Discharging" formula:
`max(sum(get_power_value(data, f"preal_l{i}") for i in range(1, 4)), 0)`. -/
def batteryDischarging (data : List (String × Json)) : Except String ℚ := do
  let x1 ← get_power_value data "preal_l1"
  let x2 ← get_power_value data "preal_l2"
  let x3 ← get_power_value data "preal_l3"
  return max (x1 + x2 + x3) 0

/-- The "Grid Feed-In" formula:
`abs(min(sum(get_power_value(data, f"pmeter_l{i}") for i in range(1, 4)), 0))`. -/
def gridFeedIn (data : List (String × Json)) : Except String ℚ := do
  let x1 ← get_power_value data "pmeter_l1"
  let x2 ← get_power_value data "pmeter_l2"
  let x3 ← get_power_value data "pmeter_l3"
  return |min (x1 + x2 + x3) 0|

/-! ### Single-flight refresh

The refresh discipline itself lives in the framework's
`DataUpdateCoordinator` (`homeassistant.helpers.update_coordinator`), which
is not part of the sources here; only its subclass
`ByteWattDataUpdateCoordinator` is.  The model below follows the spec's
description of that discipline. -/

/-- Modelled from the spec: an event of the refresh scheduler — a
`refreshNow()` request by some caller, or completion of the in-flight fetch
with a snapshot or failure.  The underlying `DataUpdateCoordinator`
implementation is missing from the sources. -/
inductive SchedEvent where
  | request (caller : Nat) : SchedEvent
  | complete (r : Except PyErr (List (String × Json))) : SchedEvent

/-- Modelled from the spec: scheduler state — the set of callers joined to
the in-flight fetch (none when idle), how many fetches were started against
the vendor API, and which caller received which result. -/
structure SchedState where
  inflight : Option (List Nat)
  fetchesStarted : Nat
  delivered : List (Nat × Except PyErr (List (String × Json)))

/-- Modelled from the spec: the single-flight step.  A request while idle
starts one fetch; a request while a fetch is in flight joins it without
starting another; completion delivers the one result to every joined
caller. -/
def schedStep (s : SchedState) : SchedEvent → SchedState
  | .request c =>
    match s.inflight with
    | none =>
      { s with inflight := some [c], fetchesStarted := s.fetchesStarted + 1 }
    | some cs => { s with inflight := some (cs ++ [c]) }
  | .complete r =>
    match s.inflight with
    | none => s
    | some cs =>
      { inflight := none
        fetchesStarted := s.fetchesStarted
        delivered := s.delivered ++ cs.map (fun c => (c, r)) }

/-- Run the scheduler from the idle initial state. -/
def schedRun (evts : List SchedEvent) : SchedState :=
  evts.foldl schedStep ⟨none, 0, []⟩

/-! ### Specification-side definitions and concrete scenario inputs -/

/-- The spec's priority classification of a non-401 response whose body is a
JSON object: vendor code 9007 first (transient fault), then a non-empty
object under `"data"` (the snapshot), else the unexpected-format error.
Stated from the spec's words as the refinement target for
`fetch_battery_data`. -/
def specClassifyBody (fields : List (String × Json)) :
    Except PyErr (List (String × Json)) :=
  if codeIs9007 fields then
    .error (.updateFailed "Network error code 9007 from Byte Watt API" none)
  else
    match fields.lookup "data" with
    | some (.obj dfields) =>
      if 0 < dfields.length then .ok dfields
      else .error (.updateFailed "Unexpected data format from Byte Watt API" none)
    | _ => .error (.updateFailed "Unexpected data format from Byte Watt API" none)

/-- Equality of every monitor attribute except the access token. -/
def sameAuthFrame (s s' : MonitorState) : Prop :=
  s'.username = s.username ∧ s'.password = s.password ∧
  s'.scan_interval = s.scan_interval ∧
  s'.auth_timestamp = s.auth_timestamp ∧
  s'.auth_signature = s.auth_signature

/-- A monitor holding a (truthy) token, about to receive a 401. -/
def s401c1 : MonitorState :=
  ⟨"user-c1", "pw-c1", 1, 1700000000, "sig-c1", .str "oldtoken"⟩

/-- Headers as `get_battery_data` would build them for `s401c1`. -/
def hdrsc1 : Headers :=
  ⟨"application/json", "1700000000", "sig-c1", "Bearer oldtoken"⟩

/-- Oracle for the 401 scenario: the login POST will yield a fresh token,
the first GET is a 401, and a second, well-formed GET response stands ready
for the retried request. -/
def netc1 : Net :=
  ⟨[.ok (.obj [("data", .obj [("AccessToken", .str "newtoken")])])],
   [.ok ⟨401, .ok .null⟩,
    .ok ⟨200, .ok (.obj [("data", .obj [("soc", .num 55)])])⟩]⟩

/-- A monitor holding a (truthy) token, for the empty-`data` scenario. -/
def sc2 : MonitorState :=
  ⟨"user-c2", "pw-c2", 1, 1700000001, "sig-c2", .str "tok2"⟩

/-- Oracle whose three GET responses all carry an empty `data` object. -/
def netc2empty : Net :=
  ⟨[],
   [.ok ⟨200, .ok (.obj [("data", .obj [])])⟩,
    .ok ⟨200, .ok (.obj [("data", .obj [])])⟩,
    .ok ⟨200, .ok (.obj [("data", .obj [])])⟩]⟩

/-- Oracle for the second 401 scenario: one 401 GET and a login POST. -/
def netc2auth : Net :=
  ⟨[.ok (.obj [("data", .obj [("AccessToken", .str "tok3")])])],
   [.ok ⟨401, .ok .null⟩]⟩

/-- The concrete telemetry snapshot of the spec's worked scenario. -/
def snapshotC7 : List (String × Json) :=
  [("soc", .num 55), ("pmeter_l1", .num (-120.5)), ("pmeter_l2", .num 80),
   ("pmeter_l3", .num 0), ("pbat", .num (-50)), ("ppv1", .num 100),
   ("ppv2", .num 0), ("ppv3", .num 0), ("ppv4", .num 0),
   ("preal_l1", .num 10), ("preal_l2", .num 20), ("preal_l3", .num 0)]

/-! ### Helper lemmas -/

theorem flattenHex_length (bs : List Nat) :
    ((bs.map byteToHex).flatten).length = 2 * bs.length := by
  induction bs with
  | nil => rfl
  | cons b rest ih =>
    simp only [List.map_cons, List.flatten_cons, List.length_append, ih,
      byteToHex, List.length_cons, List.length_nil]
    omega

theorem bytesToHex_length (bs : List Nat) : (bytesToHex bs).length = 2 * bs.length :=
  flattenHex_length bs

theorem sha512Bytes_length (msg : List Nat) : (sha512Bytes msg).length = 64 := by
  simp [sha512Bytes, word64Bytes]

theorem fetch_classify (s : MonitorState) (h : Headers) (net : Net)
    (st : Nat) (fields : List (String × Json)) (rest : List (Except String HttpResp))
    (hnet : net.gets = .ok ⟨st, .ok (.obj fields)⟩ :: rest) (hst : st ≠ 401) :
    fetch_battery_data s h net =
      (s, h, { net with gets := rest }, specClassifyBody fields) := by
  simp only [fetch_battery_data, takeGet, hnet, specClassifyBody]
  rw [if_neg hst]
  cases hc : codeIs9007 fields with
  | true => simp
  | false =>
    simp only [Bool.false_eq_true, if_false]
    cases hd : fields.lookup "data" with
    | none => rfl
    | some v =>
      cases v with
      | obj dfields => by_cases hl : 0 < dfields.length <;> simp [hl]
      | null => rfl
      | bool b => rfl
      | num q => rfl
      | str s2 => rfl
      | arr l => rfl

theorem getLoop_ok (n : Nat) (s s' : MonitorState) (h h' : Headers) (net net' : Net)
    (sl : List Nat) (d : List (String × Json))
    (hf : fetch_battery_data s h net = (s', h', net', .ok d)) :
    getLoop (n + 1) s h net sl = (s', h', net', sl, .ok d) := by
  simp [getLoop, hf]

theorem getLoop_retry (n : Nat) (s s' : MonitorState) (h h' : Headers) (net net' : Net)
    (sl : List Nat) (e : PyErr)
    (hf : fetch_battery_data s h net = (s', h', net', .error e)) (hn : 0 < n) :
    getLoop (n + 1) s h net sl = getLoop n s' h' net' (sl ++ [RETRY_DELAY]) := by
  simp [getLoop, hf, hn]

theorem getLoop_raise (s s' : MonitorState) (h h' : Headers) (net net' : Net)
    (sl : List Nat) (m : String) (c : Option String)
    (hf : fetch_battery_data s h net = (s', h', net', .error (.updateFailed m c))) :
    getLoop 1 s h net sl = (s', h', net', sl, .error (.updateFailed m c)) := by
  simp [getLoop, hf]

theorem get_battery_data_truthy (s : MonitorState) (net : Net)
    (htok : s.access_token.truthy = true)
    {s' : MonitorState} {h' : Headers} {net' : Net} {sl : List Nat}
    {res : Except PyErr (List (String × Json))}
    (hrun : getLoop MAX_RETRIES s
      ⟨"application/json", toString s.auth_timestamp, s.auth_signature,
        "Bearer " ++ s.access_token.pyStr⟩ net [] = (s', h', net', sl, res)) :
    get_battery_data s net = (s', net', sl, res) := by
  simp [get_battery_data, htok, hrun]

theorem specClassifyBody_9007 (fields : List (String × Json))
    (hc : codeIs9007 fields = true) :
    specClassifyBody fields =
      .error (.updateFailed "Network error code 9007 from Byte Watt API" none) := by
  simp [specClassifyBody, hc]

theorem sameAuthFrame_refl (s : MonitorState) : sameAuthFrame s s :=
  ⟨rfl, rfl, rfl, rfl, rfl⟩

theorem sameAuthFrame_trans {s t u : MonitorState}
    (h1 : sameAuthFrame s t) (h2 : sameAuthFrame t u) : sameAuthFrame s u := by
  obtain ⟨a1, b1, c1, d1, e1⟩ := h1
  obtain ⟨a2, b2, c2, d2, e2⟩ := h2
  exact ⟨a2.trans a1, b2.trans b1, c2.trans c1, d2.trans d1, e2.trans e1⟩

theorem authenticate_frame (s : MonitorState) (net : Net) :
    sameAuthFrame s (authenticate s net).1 := by
  unfold authenticate takePost
  repeat' split
  all_goals first
    | exact sameAuthFrame_refl s
    | exact ⟨rfl, rfl, rfl, rfl, rfl⟩

theorem authenticate_fst_frame {s s' : MonitorState} {net net' : Net}
    {oerr : Option PyErr} (hA : authenticate s net = (s', net', oerr)) :
    sameAuthFrame s s' := by
  have hf := authenticate_frame s net
  rw [hA] at hf
  exact hf

theorem fetch_frame (s : MonitorState) (h : Headers) (net : Net) :
    sameAuthFrame s (fetch_battery_data s h net).1 := by
  unfold fetch_battery_data takeGet
  repeat' split
  all_goals first
    | exact sameAuthFrame_refl s
    | exact ⟨rfl, rfl, rfl, rfl, rfl⟩
    | (rename_i heq
       exact authenticate_fst_frame heq)

theorem getLoop_frame (n : Nat) :
    ∀ (s : MonitorState) (h : Headers) (net : Net) (sl : List Nat),
      sameAuthFrame s (getLoop n s h net sl).1 := by
  induction n with
  | zero => intro s h net sl; exact sameAuthFrame_refl s
  | succ m ih =>
    intro s h net sl
    simp only [getLoop]
    rcases hf : fetch_battery_data s h net with ⟨s', h', net', res⟩
    have hframe : sameAuthFrame s s' := by
      have hff := fetch_frame s h net
      rw [hf] at hff
      exact hff
    cases res with
    | ok d => simpa using hframe
    | error e =>
      by_cases hm2 : 0 < m
      · simp only [hm2, if_true]
        exact sameAuthFrame_trans hframe (ih s' h' net' (sl ++ [RETRY_DELAY]))
      · simp only [hm2, if_false]
        cases e <;> simpa using hframe

theorem get_battery_data_frame (s : MonitorState) (net : Net) :
    sameAuthFrame s (get_battery_data s net).1 := by
  unfold get_battery_data
  by_cases htok : s.access_token.truthy
  · simp only [htok, Bool.not_true, Bool.false_eq_true, if_false]
    exact getLoop_frame MAX_RETRIES s _ net []
  · simp only [Bool.not_eq_true] at htok
    simp only [htok, Bool.not_false, if_true]
    rcases hA : authenticate s net with ⟨s', net', oerr⟩
    have hframe : sameAuthFrame s s' := by
      have hf := authenticate_frame s net
      rw [hA] at hf
      exact hf
    cases oerr with
    | none => exact sameAuthFrame_trans hframe (getLoop_frame MAX_RETRIES s' _ net' [])
    | some err => simpa using hframe

/-! ### Claim theorems -/

/-- C1: the claim fails on the code.  On a 401 the helper re-authenticates
exactly once (the single queued login response is consumed, the new token is
stored, and the Authorization header is rewritten to carry it) — but the
outer retry loop then accepts the returned `{}` marker as a result, because
`data is not None` holds for an empty dict.  The retried GET that should
carry the new token is never issued: the second queued GET response is left
unconsumed and the empty dict is returned as the success value. -/
theorem get_battery_data_401_drops_retry :
    get_battery_data s401c1 netc1 =
      ({ s401c1 with access_token := .str "newtoken" },
        ⟨[], [.ok ⟨200, .ok (.obj [("data", .obj [("soc", .num 55)])])⟩]⟩,
        [], .ok []) ∧
    fetch_battery_data s401c1 hdrsc1 netc1 =
      ({ s401c1 with access_token := .str "newtoken" },
        { hdrsc1 with authorization := "Bearer newtoken" },
        ⟨[], [.ok ⟨200, .ok (.obj [("data", .obj [("soc", .num 55)])])⟩]⟩,
        .ok []) :=
  ⟨rfl, rfl⟩

/-- C2: the first half of the claim holds — a response whose `data` field is
an empty object makes the fetch fail with the format error, which exhausts
the retry budget and surfaces as `UpdateFailed` — but the second half fails
on the code: the 401 path returns the empty dict `{}` to the caller as a
successful snapshot. -/
theorem get_battery_data_empty_mapping :
    get_battery_data sc2 netc2empty =
      (sc2, ⟨[], []⟩, [2, 2],
        .error (.updateFailed "Unexpected data format from Byte Watt API" none)) ∧
    get_battery_data sc2 netc2auth =
      ({ sc2 with access_token := .str "tok3" }, ⟨[], []⟩, [], .ok []) :=
  ⟨rfl, rfl⟩

/-- C9: single-flight refresh.  Two `refreshNow()` requests arriving while
one fetch is in flight start exactly one fetch against the vendor API, and
both callers are delivered the same resulting snapshot or failure. -/
theorem single_flight_coalesces_requests (a b : Nat)
    (r : Except PyErr (List (String × Json))) :
    schedRun [.request a, .request b, .complete r] =
      ⟨none, 1, [(a, r), (b, r)]⟩ :=
  rfl

/-- C7: the spec's worked telemetry example.  On the concrete snapshot the
derived projections evaluate to the expected values: feed-in 120.5,
consumption 0, battery charging 50, PV generation 100, battery
discharging 30. -/
theorem derived_projections_on_snapshot :
    gridPhase1FeedIn snapshotC7 = .ok 120.5 ∧
    gridPhase1Consumption snapshotC7 = .ok 0 ∧
    batteryCharging snapshotC7 = .ok 50 ∧
    pvGeneration snapshotC7 = .ok 100 ∧
    batteryDischarging snapshotC7 = .ok 30 := by
  refine ⟨?_, ?_, ?_, ?_, ?_⟩ <;>
    simp +decide [gridPhase1FeedIn, gridPhase1Consumption, batteryCharging,
      pvGeneration, batteryDischarging, get_power_value, pyFloat, snapshotC7,
      Except.map, Bind.bind, Except.bind, pure, Except.pure, List.lookup] <;>
    try norm_num [min_def, abs]

/-- C10: the projection helper returns the numeric value of a present,
non-`None` field and `0.0` for a missing or `None` field, so the derived
readings treat absent telemetry as zero instead of failing. -/
theorem get_power_value_defaults (data : List (String × Json)) (key : String) :
    (∀ q : ℚ, data.lookup key = some (.num q) →
        get_power_value data key = .ok q) ∧
    (data.lookup key = none → get_power_value data key = .ok 0) ∧
    (data.lookup key = some .null → get_power_value data key = .ok 0) ∧
    (gridPhase1FeedIn [] = .ok 0 ∧ gridPhase1Consumption [] = .ok 0 ∧
      batteryCharging [] = .ok 0 ∧ pvGeneration [] = .ok 0 ∧
      batteryDischarging [] = .ok 0 ∧ gridFeedIn [] = .ok 0) := by
  refine ⟨fun q hq => by simp [get_power_value, hq, pyFloat],
    fun hn => by simp [get_power_value, hn],
    fun hn => by simp [get_power_value, hn],
    ?_, ?_, ?_, ?_, ?_, ?_⟩ <;>
    simp +decide [gridPhase1FeedIn, gridPhase1Consumption, batteryCharging,
      pvGeneration, batteryDischarging, gridFeedIn, get_power_value, pyFloat,
      Except.map, Bind.bind, Except.bind, pure, Except.pure, List.lookup] <;>
    try norm_num [min_def, abs]

/-- Closed instance of C10's statement at concrete inputs. -/
theorem get_power_value_defaults_witness :
    get_power_value [("soc", .num 55)] "soc" = .ok 55 ∧
    get_power_value [("soc", .num 55)] "pbat" = .ok 0 ∧
    get_power_value [("pbat", .null)] "pbat" = .ok 0 :=
  ⟨(get_power_value_defaults [("soc", .num 55)] "soc").1 55 (by simp),
   (get_power_value_defaults [("soc", .num 55)] "pbat").2.1 (by simp),
   (get_power_value_defaults [("pbat", .null)] "pbat").2.2.1 (by simp)⟩

/-- C3: three consecutive transient failures.  With a truthy token and three
queued non-401 responses each carrying vendor code 9007, the client consumes
exactly the three GET responses (any further queued responses stay
untouched, so no 4th call is issued), sleeps the fixed 2-second backoff
between consecutive attempts, and raises the transient `UpdateFailed` after
the third attempt.  No login POST is consumed. -/
theorem three_transient_failures_exhaust_retries
    (s : MonitorState) (posts : List (Except String Json))
    (st1 st2 st3 : Nat) (f1 f2 f3 : List (String × Json))
    (rest : List (Except String HttpResp))
    (htok : s.access_token.truthy = true)
    (h1 : st1 ≠ 401) (h2 : st2 ≠ 401) (h3 : st3 ≠ 401)
    (hc1 : codeIs9007 f1 = true) (hc2 : codeIs9007 f2 = true)
    (hc3 : codeIs9007 f3 = true) :
    get_battery_data s
        ⟨posts,
         .ok ⟨st1, .ok (.obj f1)⟩ :: .ok ⟨st2, .ok (.obj f2)⟩ ::
           .ok ⟨st3, .ok (.obj f3)⟩ :: rest⟩ =
      (s, ⟨posts, rest⟩, [RETRY_DELAY, RETRY_DELAY],
        .error (.updateFailed "Network error code 9007 from Byte Watt API" none)) := by
  have e1 := fetch_classify s
    ⟨"application/json", toString s.auth_timestamp, s.auth_signature,
      "Bearer " ++ s.access_token.pyStr⟩
    ⟨posts, .ok ⟨st1, .ok (.obj f1)⟩ :: .ok ⟨st2, .ok (.obj f2)⟩ ::
      .ok ⟨st3, .ok (.obj f3)⟩ :: rest⟩ st1 f1 _ rfl h1
  rw [specClassifyBody_9007 f1 hc1] at e1
  have e2 := fetch_classify s
    ⟨"application/json", toString s.auth_timestamp, s.auth_signature,
      "Bearer " ++ s.access_token.pyStr⟩
    ⟨posts, .ok ⟨st2, .ok (.obj f2)⟩ :: .ok ⟨st3, .ok (.obj f3)⟩ :: rest⟩
    st2 f2 _ rfl h2
  rw [specClassifyBody_9007 f2 hc2] at e2
  have e3 := fetch_classify s
    ⟨"application/json", toString s.auth_timestamp, s.auth_signature,
      "Bearer " ++ s.access_token.pyStr⟩
    ⟨posts, .ok ⟨st3, .ok (.obj f3)⟩ :: rest⟩ st3 f3 _ rfl h3
  rw [specClassifyBody_9007 f3 hc3] at e3
  exact get_battery_data_truthy s _ htok
    ((getLoop_retry 2 s s _ _ _ _ [] _ e1 (by norm_num)).trans
      ((getLoop_retry 1 s s _ _ _ _ _ _ e2 (by norm_num)).trans
        (getLoop_raise s s _ _ _ _ _ _ _ e3)))

/-- Closed instance of C3 at a concrete monitor and three concrete 9007
responses, with a 4th queued response left unconsumed. -/
theorem three_transient_failures_exhaust_retries_witness :
    get_battery_data ⟨"u", "p", 1, 0, "sig", .str "tok"⟩
        ⟨[],
         .ok ⟨200, .ok (.obj [("code", .num 9007)])⟩ ::
           .ok ⟨200, .ok (.obj [("code", .num 9007)])⟩ ::
             .ok ⟨200, .ok (.obj [("code", .num 9007)])⟩ ::
               [.ok ⟨200, .ok (.obj [("data", .obj [("soc", .num 55)])])⟩]⟩ =
      (⟨"u", "p", 1, 0, "sig", .str "tok"⟩,
        ⟨[], [.ok ⟨200, .ok (.obj [("data", .obj [("soc", .num 55)])])⟩]⟩,
        [RETRY_DELAY, RETRY_DELAY],
        .error (.updateFailed "Network error code 9007 from Byte Watt API" none)) :=
  three_transient_failures_exhaust_retries
    ⟨"u", "p", 1, 0, "sig", .str "tok"⟩ [] 200 200 200
    [("code", .num 9007)] [("code", .num 9007)] [("code", .num 9007)]
    [.ok ⟨200, .ok (.obj [("data", .obj [("soc", .num 55)])])⟩]
    (by decide) (by decide) (by decide) (by decide)
    (by simp [codeIs9007]) (by simp [codeIs9007]) (by simp [codeIs9007])

/-- C4: the signature is the fixed text `al8e4s`, then the lowercase hex
encoding of the SHA-512 digest of the four fixed secrets (in order) followed
by the decimal form of the timestamp, then the fixed text `ui893ed`; the
hex part always has the 128 characters of a 64-byte digest, and the function
is deterministic: equal timestamps give identical signatures. -/
theorem generate_auth_signature_spec (t : Int) :
    generate_auth_signature t =
      "al8e4s" ++
        bytesToHex (sha512Bytes (strBytes
          ("LS885ZYDA95JV" ++ "FQKUIUUUV7PQNODZ" ++ "RDZIS4ERRED" ++
            "S0EED8BCWSS" ++ toString t))) ++ "ui893ed" ∧
    (bytesToHex (sha512Bytes (strBytes
      ("LS885ZYDA95JV" ++ "FQKUIUUUV7PQNODZ" ++ "RDZIS4ERRED" ++
        "S0EED8BCWSS" ++ toString t)))).length = 128 ∧
    ∀ t' : Int, t = t' →
      generate_auth_signature t = generate_auth_signature t' := by
  refine ⟨rfl, ?_, fun t' ht => by rw [ht]⟩
  rw [bytesToHex_length, sha512Bytes_length]

/-- Closed instance of C4's determinism clause at a concrete timestamp. -/
theorem generate_auth_signature_spec_witness :
    generate_auth_signature 1700000000 = generate_auth_signature 1700000000 :=
  (generate_auth_signature_spec 1700000000).2.2 1700000000 rfl

/-- C5: when the login body carries a token under `data.AccessToken`, the
client ends up holding exactly that token with no error; on any failure the
raised error is the authentication `UpdateFailed` wrapping its cause, and
the whole monitor state — the stored token included — is unchanged. -/
theorem authenticate_token_exact_or_unchanged (s : MonitorState) (net : Net) :
    (∀ body rest tok, net.posts = .ok body :: rest →
        extractAccessToken body = .ok tok →
        authenticate s net =
          ({ s with access_token := tok }, { net with posts := rest }, none)) ∧
    (∀ s' net' err, authenticate s net = (s', net', some err) →
        s' = s ∧
        ∃ cause, err = .updateFailed "Error authenticating with Byte Watt API"
          (some cause)) := by
  constructor
  · intro body rest tok hp hex
    simp [authenticate, takePost, hp, hex]
  · intro s' net' err heq
    cases hnp : net.posts with
    | nil =>
      have hcomp : authenticate s net =
          (s, net, some (.updateFailed "Error authenticating with Byte Watt API"
            (some "connection error"))) := by
        simp [authenticate, takePost, hnp]
      rw [hcomp] at heq
      injection heq with hA hrest
      injection hrest with hB hC
      injection hC with hD
      exact ⟨hA.symm, "connection error", hD.symm⟩
    | cons r rest =>
      cases r with
      | error e =>
        have hcomp : authenticate s net =
            (s, { net with posts := rest },
              some (.updateFailed "Error authenticating with Byte Watt API"
                (some e))) := by
          simp [authenticate, takePost, hnp]
        rw [hcomp] at heq
        injection heq with hA hrest
        injection hrest with hB hC
        injection hC with hD
        exact ⟨hA.symm, e, hD.symm⟩
      | ok body =>
        cases hex : extractAccessToken body with
        | ok tok =>
          have hcomp : authenticate s net =
              ({ s with access_token := tok }, { net with posts := rest }, none) := by
            simp [authenticate, takePost, hnp, hex]
          rw [hcomp] at heq
          injection heq with hA hrest
          injection hrest with hB hC
          exact Option.noConfusion hC
        | error e =>
          have hcomp : authenticate s net =
              (s, { net with posts := rest },
                some (.updateFailed "Error authenticating with Byte Watt API"
                  (some e))) := by
            simp [authenticate, takePost, hnp, hex]
          rw [hcomp] at heq
          injection heq with hA hrest
          injection hrest with hB hC
          injection hC with hD
          exact ⟨hA.symm, e, hD.symm⟩

/-- Closed instance of C5: a successful login stores exactly the returned
token, and the failing login on an exhausted oracle reports the wrapped
authentication error with the state unchanged. -/
theorem authenticate_token_exact_or_unchanged_witness :
    authenticate ⟨"u5", "p5", 1, 5, "sig5", .null⟩
        ⟨[.ok (.obj [("data", .obj [("AccessToken", .str "abc123")])])], []⟩ =
      (⟨"u5", "p5", 1, 5, "sig5", .str "abc123"⟩, ⟨[], []⟩, none) ∧
    (⟨"u5", "p5", 1, 5, "sig5", .null⟩ : MonitorState) =
        ⟨"u5", "p5", 1, 5, "sig5", .null⟩ ∧
    ∃ cause,
      (PyErr.updateFailed "Error authenticating with Byte Watt API"
          (some "connection error")) =
        .updateFailed "Error authenticating with Byte Watt API" (some cause) :=
  ⟨(authenticate_token_exact_or_unchanged ⟨"u5", "p5", 1, 5, "sig5", .null⟩
      ⟨[.ok (.obj [("data", .obj [("AccessToken", .str "abc123")])])], []⟩).1
      (.obj [("data", .obj [("AccessToken", .str "abc123")])]) [] (.str "abc123")
      rfl rfl,
   (authenticate_token_exact_or_unchanged ⟨"u5", "p5", 1, 5, "sig5", .null⟩
      ⟨[], []⟩).2 ⟨"u5", "p5", 1, 5, "sig5", .null⟩ ⟨[], []⟩
      (.updateFailed "Error authenticating with Byte Watt API"
        (some "connection error")) rfl⟩

/-- C6: a non-401 response with a JSON-object body is classified exactly as
the spec's priority order prescribes (`specClassifyBody`): vendor code 9007
wins and gives the transient fault even when a `data` field is also present;
otherwise a non-empty object under `data` is the returned snapshot;
anything else is the unexpected-format error.  Both failure kinds are
`UpdateFailed`s, which the surrounding loop retries with the fixed backoff:
a failing first attempt followed by a well-formed response yields that
snapshot after one backoff sleep. -/
theorem fetch_priority_classification (s : MonitorState) (h : Headers)
    (net : Net) (st : Nat) (fields : List (String × Json))
    (rest : List (Except String HttpResp))
    (hnet : net.gets = .ok ⟨st, .ok (.obj fields)⟩ :: rest) (hst : st ≠ 401) :
    fetch_battery_data s h net =
      (s, h, { net with gets := rest }, specClassifyBody fields) ∧
    (codeIs9007 fields = true →
      specClassifyBody fields =
        .error (.updateFailed "Network error code 9007 from Byte Watt API" none)) ∧
    (codeIs9007 fields = false →
      ∀ dfields, fields.lookup "data" = some (.obj dfields) → dfields ≠ [] →
        specClassifyBody fields = .ok dfields) ∧
    (codeIs9007 fields = false →
      (∀ dfields, fields.lookup "data" = some (.obj dfields) → dfields = []) →
      specClassifyBody fields =
        .error (.updateFailed "Unexpected data format from Byte Watt API" none)) ∧
    (∀ (s2 : MonitorState) (posts : List (Except String Json))
        (st1 st2 : Nat) (f1 f2 dfields : List (String × Json))
        (rest2 : List (Except String HttpResp)) (m : String),
      s2.access_token.truthy = true → st1 ≠ 401 → st2 ≠ 401 →
      specClassifyBody f1 = .error (.updateFailed m none) →
      specClassifyBody f2 = .ok dfields →
      get_battery_data s2
          ⟨posts, .ok ⟨st1, .ok (.obj f1)⟩ :: .ok ⟨st2, .ok (.obj f2)⟩ :: rest2⟩ =
        (s2, ⟨posts, rest2⟩, [RETRY_DELAY], .ok dfields)) := by
  refine ⟨fetch_classify s h net st fields rest hnet hst, ?_, ?_, ?_, ?_⟩
  · intro hc
    simp [specClassifyBody, hc]
  · intro hc dfields hd hne
    simp [specClassifyBody, hc, hd, List.length_pos.mpr hne]
  · intro hc hall
    unfold specClassifyBody
    rw [hc]
    simp only [Bool.false_eq_true, if_false]
    cases hd : fields.lookup "data" with
    | none => rfl
    | some v =>
      cases v with
      | obj dfields =>
        have : dfields = [] := hall dfields hd
        subst this
        rfl
      | null => rfl
      | bool b => rfl
      | num q => rfl
      | str s3 => rfl
      | arr l => rfl
  · intro s2 posts st1 st2 f1 f2 dfields rest2 m htok hst1 hst2 hf1 hf2
    have e1 := fetch_classify s2
      ⟨"application/json", toString s2.auth_timestamp, s2.auth_signature,
        "Bearer " ++ s2.access_token.pyStr⟩
      ⟨posts, .ok ⟨st1, .ok (.obj f1)⟩ :: .ok ⟨st2, .ok (.obj f2)⟩ :: rest2⟩
      st1 f1 _ rfl hst1
    rw [hf1] at e1
    have e2 := fetch_classify s2
      ⟨"application/json", toString s2.auth_timestamp, s2.auth_signature,
        "Bearer " ++ s2.access_token.pyStr⟩
      ⟨posts, .ok ⟨st2, .ok (.obj f2)⟩ :: rest2⟩ st2 f2 _ rfl hst2
    rw [hf2] at e2
    exact get_battery_data_truthy s2 _ htok
      ((getLoop_retry 2 s2 s2 _ _ _ _ [] _ e1 (by norm_num)).trans
        (getLoop_ok 1 s2 s2 _ _ _ _ _ _ e2))

/-- Closed instance of C6: a body carrying both `code = 9007` and a `data`
object is classified as the transient fault (priority), and a 9007 failure
followed by a well-formed response is retried into that snapshot. -/
theorem fetch_priority_classification_witness :
    fetch_battery_data ⟨"u6", "p6", 1, 6, "sig6", .str "tok6"⟩
        ⟨"application/json", "6", "sig6", "Bearer tok6"⟩
        ⟨[], [.ok ⟨200, .ok (.obj [("code", .num 9007),
          ("data", .obj [("soc", .num 7)])])⟩]⟩ =
      (⟨"u6", "p6", 1, 6, "sig6", .str "tok6"⟩,
        ⟨"application/json", "6", "sig6", "Bearer tok6"⟩,
        ⟨[], []⟩,
        specClassifyBody [("code", .num 9007), ("data", .obj [("soc", .num 7)])]) ∧
    specClassifyBody [("code", .num 9007), ("data", .obj [("soc", .num 7)])] =
      .error (.updateFailed "Network error code 9007 from Byte Watt API" none) ∧
    get_battery_data ⟨"u6", "p6", 1, 6, "sig6", .str "tok6"⟩
        ⟨[], [.ok ⟨200, .ok (.obj [("code", .num 9007)])⟩,
          .ok ⟨200, .ok (.obj [("data", .obj [("soc", .num 7)])])⟩]⟩ =
      (⟨"u6", "p6", 1, 6, "sig6", .str "tok6"⟩, ⟨[], []⟩, [RETRY_DELAY],
        .ok [("soc", .num 7)]) :=
  ⟨(fetch_priority_classification ⟨"u6", "p6", 1, 6, "sig6", .str "tok6"⟩
      ⟨"application/json", "6", "sig6", "Bearer tok6"⟩
      ⟨[], [.ok ⟨200, .ok (.obj [("code", .num 9007),
        ("data", .obj [("soc", .num 7)])])⟩]⟩
      200 [("code", .num 9007), ("data", .obj [("soc", .num 7)])] []
      rfl (by decide)).1,
   (fetch_priority_classification ⟨"u6", "p6", 1, 6, "sig6", .str "tok6"⟩
      ⟨"application/json", "6", "sig6", "Bearer tok6"⟩
      ⟨[], [.ok ⟨200, .ok (.obj [("code", .num 9007),
        ("data", .obj [("soc", .num 7)])])⟩]⟩
      200 [("code", .num 9007), ("data", .obj [("soc", .num 7)])] []
      rfl (by decide)).2.1 (by simp [codeIs9007]),
   (fetch_priority_classification ⟨"u6", "p6", 1, 6, "sig6", .str "tok6"⟩
      ⟨"application/json", "6", "sig6", "Bearer tok6"⟩
      ⟨[], [.ok ⟨200, .ok (.obj [("code", .num 9007),
        ("data", .obj [("soc", .num 7)])])⟩]⟩
      200 [("code", .num 9007), ("data", .obj [("soc", .num 7)])] []
      rfl (by decide)).2.2.2.2
      ⟨"u6", "p6", 1, 6, "sig6", .str "tok6"⟩ [] 200 200
      [("code", .num 9007)] [("data", .obj [("soc", .num 7)])] [("soc", .num 7)]
      [] "Network error code 9007 from Byte Watt API"
      (by decide) (by decide) (by decide)
      (by simp +decide [specClassifyBody, codeIs9007, List.lookup])
      (by simp +decide [specClassifyBody, codeIs9007, List.lookup])⟩

/-- C8: the authentication timestamp and signature are fixed at
construction — `initMonitor` stamps the construction-time clock value and
its signature — and neither `authenticate` nor `get_battery_data` changes
any monitor attribute other than the stored access token. -/
theorem monitor_frame_conditions :
    (∀ (u p : String) (si now : Int),
      (initMonitor u p si now).auth_timestamp = now ∧
      (initMonitor u p si now).auth_signature = generate_auth_signature now) ∧
    (∀ (s : MonitorState) (net : Net),
      sameAuthFrame s (authenticate s net).1) ∧
    (∀ (s : MonitorState) (net : Net),
      sameAuthFrame s (get_battery_data s net).1) :=
  ⟨fun _ _ _ _ => ⟨rfl, rfl⟩, authenticate_frame, get_battery_data_frame⟩

end ByteWatt
